import Mathlib

/-!
Shallow embedding of the JavascriptChallenges lesson application
(src/unnamed/part_000, with src/unnamed/part_002 and
src/js-learning-platform/src/App.tsx as earlier variants of the same
component), together with theorems settling the specification claims.

The dynamic execution of user-submitted JavaScript and of the per-lesson
test assertions is abstracted by an evaluation oracle `JsEval`: each piece
of spliced code either returns a value (whose truthiness is a `Bool`) or
throws with a message.  The surrounding harness logic — the script built
by `handleRunCode`, the state-updating handlers, the render branches — is
translated statement by statement from the source.
-/

/-- A test case of a lesson: `interface TestCase { name; assertion }`. -/
structure TestCase where
  name : String
  assertion : String
deriving DecidableEq

/-- A lesson record: `interface Lesson` in the source.  `validation` and
`tests` are optional fields there, hence `Option` here. -/
structure Lesson where
  id : String
  title : String
  explanation : String
  challenge : String
  initialCode : String
  validation : Option String
  tests : Option (List TestCase)
  hint : String
deriving DecidableEq

/-- One entry of `details` in the posted test results:
`{ name; passed; error? }`. -/
structure TestDetail where
  name : String
  passed : Bool
  error : Option String
deriving DecidableEq

/-- The structured test-results record:
`interface TestRunResult { passCount; totalCount; details }`. -/
structure TestRunResult where
  passCount : Nat
  totalCount : Nat
  details : List TestDetail
deriving DecidableEq

/-- A message posted from the runner frame back to the parent window:
either `{ type: 'result', payload: <string> }` or
`{ type: 'testResults', payload: <TestRunResult> }`. -/
inductive Message where
  | result (payload : String)
  | testResults (payload : TestRunResult)
deriving DecidableEq

/-- Outcome of evaluating one spliced JavaScript fragment: it either
returns a value, recorded by its truthiness, or throws with a message. -/
inductive EvalOutcome where
  | ok (truthy : Bool)
  | throws (msg : String)
deriving DecidableEq

/-- Evaluation oracle for one run of the generated harness script:
`userThrow` is the outcome of executing the user's code (`none` when it
completes), `evalAssertion` evaluates `function(){ <assertion> }()` for a
test assertion, and `evalValidation` evaluates
`function(){ <validation> }()`.  The oracle is fixed for the run. -/
structure JsEval where
  userThrow : Option String
  evalAssertion : String → EvalOutcome
  evalValidation : String → EvalOutcome

/-- `Array.isArray(lesson.tests) && lesson.tests.length > 0`. -/
def hasTests (l : Lesson) : Bool :=
  match l.tests with
  | some ts => ts.length > 0
  | none => false

/-- The detail entry the test loop pushes for one test `t`:
`{ name: t.name, passed }` on a normal return, and
`{ name: t.name, passed: false, error: String(err.message) }` when the
assertion throws. -/
def detailOf (ev : JsEval) (t : TestCase) : TestDetail :=
  match ev.evalAssertion t.assertion with
  | EvalOutcome.ok v => { name := t.name, passed := v, error := none }
  | EvalOutcome.throws m => { name := t.name, passed := false, error := some m }

/-- One iteration of the `for (const t of tests)` loop, acting on the
accumulated `(details, passCount)` pair. -/
def runTestsStep (ev : JsEval) (acc : List TestDetail × Nat) (t : TestCase) :
    List TestDetail × Nat :=
  match ev.evalAssertion t.assertion with
  | EvalOutcome.ok v =>
      (acc.1 ++ [{ name := t.name, passed := v, error := none }],
       if v then acc.2 + 1 else acc.2)
  | EvalOutcome.throws m =>
      (acc.1 ++ [{ name := t.name, passed := false, error := some m }],
       acc.2)

/-- The whole test loop: `details` starts `[]`, `passCount` starts `0`. -/
def runTests (ev : JsEval) (ts : List TestCase) : List TestDetail × Nat :=
  ts.foldl (runTestsStep ev) ([], 0)

/-- The outcome of `(function() { lesson.validation ?? 'return false;' })()`:
a missing validation expression runs the body `return false;`, which
returns `false` and never throws. -/
def validationOutcome (ev : JsEval) (l : Lesson) : EvalOutcome :=
  match l.validation with
  | some v => ev.evalValidation v
  | none => EvalOutcome.ok false

/-- The harness script built and executed by `handleRunCode`, as the list
of messages it posts to the parent window (each `postMessage` call
appends one element, in program order). -/
def handleRunCode (ev : JsEval) (l : Lesson) : List Message :=
  match ev.userThrow with
  | some m => [Message.result ("Error: " ++ m)]
  | none =>
    if hasTests l then
      let ts := l.tests.getD []
      let r := runTests ev ts
      [Message.testResults { passCount := r.2, totalCount := ts.length, details := r.1 }]
    else
      match validationOutcome ev l with
      | EvalOutcome.ok b =>
          [Message.result
            (if b then "Success! Correct!" else "Keep trying! The validation failed.")]
      | EvalOutcome.throws m => [Message.result ("Error: " ++ m)]

/-- Whether a posted message has the `testResults` shape. -/
def isTestResults : Message → Bool
  | Message.testResults _ => true
  | Message.result _ => false

/-! ## Helper lemmas about the test loop -/

/-- One loop iteration appends exactly the detail entry `detailOf ev t`
and bumps `passCount` exactly when that entry passed. -/
theorem runTestsStep_eq (ev : JsEval) (acc : List TestDetail × Nat) (t : TestCase) :
    runTestsStep ev acc t =
      (acc.1 ++ [detailOf ev t],
       acc.2 + (if (detailOf ev t).passed then 1 else 0)) := by
  unfold runTestsStep detailOf
  cases h : ev.evalAssertion t.assertion with
  | ok v => cases v <;> simp
  | throws m => simp

/-- Closed form of the fold from an arbitrary accumulator. -/
theorem runTests_foldl_eq (ev : JsEval) (ts : List TestCase) :
    ∀ acc : List TestDetail × Nat,
      ts.foldl (runTestsStep ev) acc =
        (acc.1 ++ ts.map (detailOf ev),
         acc.2 + (ts.map (detailOf ev)).countP (fun d => d.passed)) := by
  induction ts with
  | nil => intro acc; simp
  | cons t ts ih =>
    intro acc
    simp only [List.foldl_cons, ih, runTestsStep_eq, List.map_cons, List.countP_cons]
    refine Prod.ext ?_ ?_
    · simp
    · simp only [decide_eq_true_eq]
      omega

/-- Closed form of the test loop: the details are `detailOf` of each test
in order, and `passCount` counts the passing details. -/
theorem runTests_eq (ev : JsEval) (ts : List TestCase) :
    runTests ev ts =
      (ts.map (detailOf ev),
       (ts.map (detailOf ev)).countP (fun d => d.passed)) := by
  unfold runTests
  rw [runTests_foldl_eq]
  simp

/-! ## Application state and its handlers -/

/-- Placeholder `Lesson` for total indexing; indexed accesses in the
theorems always carry an in-range hypothesis. -/
def defaultLesson : Lesson :=
  { id := "", title := "", explanation := "", challenge := "",
    initialCode := "", validation := none, tests := none, hint := "" }

/-- The component state relevant to the claims: the `useState` cells
`lessons`, `currentLessonIndex`, `code`, `result`, `testResult`,
`loading`, `error`, `showHint`, plus `localStorage` as a partial map
(`getItem` returns `null`, i.e. `none`, for a missing key). -/
structure AppState where
  lessons : List Lesson
  currentLessonIndex : Nat
  code : String
  result : String
  testResult : Option TestRunResult
  loading : Bool
  error : Option String
  showHint : Bool
  storage : String → Option String

/-- The storage key of a lesson's saved code: `code-lesson-` + id. -/
def codeKey (id : String) : String := "code-lesson-" ++ id

/-- JavaScript `a || b` on `getItem`'s result: `null` and the empty
string are falsy, any other string is returned itself. -/
def jsStringOr (saved : Option String) (fallback : String) : String :=
  match saved with
  | some s => if s = "" then fallback else s
  | none => fallback

/-- The `useEffect` that runs when the current lesson index (or the
lesson list) changes: load the saved code for the current lesson from
storage, falling back to the lesson's `initialCode`. -/
def loadInitialCode (s : AppState) : AppState :=
  if 0 < s.lessons.length then
    let lesson := s.lessons.getD s.currentLessonIndex defaultLesson
    { s with code := jsStringOr (s.storage (codeKey lesson.id)) lesson.initialCode }
  else s

/-- `handleResetCode`: remove the current lesson's stored code, restore
the lesson's `initialCode` in the editor, set the result text, clear the
test result. -/
def handleResetCode (s : AppState) : AppState :=
  if 0 < s.lessons.length then
    let currentLesson := s.lessons.getD s.currentLessonIndex defaultLesson
    { s with
      storage := fun k => if k = codeKey currentLesson.id then none else s.storage k,
      code := currentLesson.initialCode,
      result := "Code has been reset.",
      testResult := none }
  else s

/-- `handleLessonSelect`: switch to the chosen index and clear the
result, test result and hint (the source applies no bounds check). -/
def handleLessonSelect (s : AppState) (newIndex : Nat) : AppState :=
  { s with
    currentLessonIndex := newIndex,
    result := "",
    testResult := none,
    showHint := false }

/-- The `data` field of an incoming frame message, as the handler
discriminates it: a `result` string, a `testResults` payload, or
anything else (including a missing `data`). -/
inductive FrameData where
  | result (payload : String)
  | testResults (payload : TestRunResult)
  | other

/-- `handleMessage`: apply an incoming frame message to the state.  A
`result` message clears the test result and sets the result text; a
`testResults` message clears the result text and stores the payload;
anything else is ignored.  No field of the state is consulted. -/
def handleMessage (s : AppState) : FrameData → AppState
  | FrameData.result p => { s with testResult := none, result := p }
  | FrameData.testResults r => { s with result := "", testResult := some r }
  | FrameData.other => s

/-- Outcome of the startup `fetch` of `lessons.json`: a parsed lesson
list, a non-ok HTTP status (the handler throws, landing in `catch`), or
a network error (also landing in `catch`). -/
inductive FetchOutcome where
  | success (data : List Lesson)
  | httpError (status : Nat)
  | networkError

/-- The error text set by the fetch `catch` handler. -/
def fetchFailureMessage : String :=
  "Failed to load lessons. Check the browser console for more details."

/-- Effect of the lessons fetch settling: `then` stores the data,
`catch` stores the error text, `finally` clears `loading`. -/
def applyFetchResult (s : AppState) : FetchOutcome → AppState
  | FetchOutcome.success data => { s with lessons := data, loading := false }
  | FetchOutcome.httpError _ => { s with error := some fetchFailureMessage, loading := false }
  | FetchOutcome.networkError => { s with error := some fetchFailureMessage, loading := false }

/-- What the component renders, following the early returns of `App`:
the loading pane, the error pane, the empty-state pane, or the lesson
view for the current lesson. -/
inductive View where
  | loadingView
  | errorView (msg : String)
  | emptyView (msg : String)
  | lessonView (l : Lesson)
deriving DecidableEq

/-- The render function of `App`, restricted to which top-level view is
produced. -/
def render (s : AppState) : View :=
  if s.loading then View.loadingView
  else
    match s.error with
    | some e => View.errorView e
    | none =>
      if s.lessons.length = 0 then View.emptyView "No lessons found."
      else View.lessonView (s.lessons.getD s.currentLessonIndex defaultLesson)

/-- The hint button's click handler `setShowHint(!showHint)`: the
closure captures the `showHint` value of the render that created the
button (`rendered`), and dispatching it replaces the state with the
negation of that captured value, whatever the state is at dispatch
time (the source uses the value form of `setShowHint`, not the
functional-update form). -/
def hintClick (rendered : Bool) : Bool → Bool :=
  fun _ => !rendered

/-! ## Characterization of the posted messages -/

/-- When the user code completes and the lesson has tests, the harness
posts exactly the structured test results of the test loop. -/
theorem handleRunCode_tests_eq (ev : JsEval) (l : Lesson)
    (hu : ev.userThrow = none) (ht : hasTests l = true) :
    handleRunCode ev l =
      [Message.testResults
        { passCount := ((l.tests.getD []).map (detailOf ev)).countP (fun d => d.passed),
          totalCount := (l.tests.getD []).length,
          details := (l.tests.getD []).map (detailOf ev) }] := by
  unfold handleRunCode
  rw [hu]
  simp only [ht, if_true, runTests_eq]

/-- When the user code throws, the harness posts the single error
result. -/
theorem handleRunCode_userThrow_eq (ev : JsEval) (l : Lesson) (m : String)
    (hu : ev.userThrow = some m) :
    handleRunCode ev l = [Message.result ("Error: " ++ m)] := by
  unfold handleRunCode
  rw [hu]

/-- When the user code completes and the lesson has no (non-empty) test
list, the harness posts the single validation result. -/
theorem handleRunCode_validation_eq (ev : JsEval) (l : Lesson)
    (hu : ev.userThrow = none) (ht : hasTests l = false) :
    handleRunCode ev l =
      match validationOutcome ev l with
      | EvalOutcome.ok b =>
          [Message.result
            (if b then "Success! Correct!" else "Keep trying! The validation failed.")]
      | EvalOutcome.throws m => [Message.result ("Error: " ++ m)] := by
  unfold handleRunCode
  rw [hu]
  simp [ht]

/-- The name of a produced detail entry is the test's name. -/
theorem detailOf_name (ev : JsEval) (t : TestCase) : (detailOf ev t).name = t.name := by
  unfold detailOf
  cases ev.evalAssertion t.assertion <;> rfl

/-- A produced detail entry carries an error only when it did not pass. -/
theorem detailOf_error_isSome (ev : JsEval) (t : TestCase) :
    (detailOf ev t).error.isSome = true → (detailOf ev t).passed = false := by
  unfold detailOf
  cases ev.evalAssertion t.assertion with
  | ok v => intro h; simp at h
  | throws m => intro h; rfl

/-! ## Claim theorems: the generated harness -/

/-- C1: for a lesson with a non-empty test list, when the user code
completes and every test assertion returns a truthy value, the posted
testResults payload has passCount equal to totalCount, and totalCount
equal to the number of tests in the lesson. -/
theorem c1_all_pass_reports_full_count (ev : JsEval) (l : Lesson)
    (hu : ev.userThrow = none) (ht : hasTests l = true)
    (hall : ∀ t ∈ l.tests.getD [], ev.evalAssertion t.assertion = EvalOutcome.ok true) :
    ∃ r : TestRunResult,
      handleRunCode ev l = [Message.testResults r] ∧
      r.passCount = r.totalCount ∧
      r.totalCount = (l.tests.getD []).length := by
  refine ⟨_, handleRunCode_tests_eq ev l hu ht, ?_, rfl⟩
  show ((l.tests.getD []).map (detailOf ev)).countP (fun d => d.passed) =
    (l.tests.getD []).length
  have hmem : ∀ d ∈ (l.tests.getD []).map (detailOf ev), d.passed = true := by
    intro d hd
    rcases List.mem_map.mp hd with ⟨t, htm, rfl⟩
    simp [detailOf, hall t htm]
  calc ((l.tests.getD []).map (detailOf ev)).countP (fun d => d.passed)
      = ((l.tests.getD []).map (detailOf ev)).length :=
        List.countP_eq_length.mpr hmem
    _ = (l.tests.getD []).length := List.length_map _ _

/-- A lesson with two named tests, used to instantiate the claims. -/
def lessonTwoTests : Lesson :=
  { id := "c1", title := "", explanation := "", challenge := "",
    initialCode := "", validation := none,
    tests := some [{ name := "t1", assertion := "a1" },
                   { name := "t2", assertion := "a2" }],
    hint := "" }

/-- An oracle on which everything evaluates to a truthy value. -/
def evAllPass : JsEval :=
  { userThrow := none,
    evalAssertion := fun _ => EvalOutcome.ok true,
    evalValidation := fun _ => EvalOutcome.ok true }

/-- Concrete instantiation of `c1_all_pass_reports_full_count`. -/
theorem c1_all_pass_reports_full_count_witness :
    ∃ r : TestRunResult,
      handleRunCode evAllPass lessonTwoTests = [Message.testResults r] ∧
      r.passCount = r.totalCount ∧
      r.totalCount = (lessonTwoTests.tests.getD []).length :=
  c1_all_pass_reports_full_count evAllPass lessonTwoTests rfl (by decide)
    (fun t _ => rfl)

/-- C2: a throw during execution is caught and surfaced.  A throw in the
user code, or in the single validation expression, posts the result
string `Error: ` followed by the thrown message; a throw inside an
individual test assertion produces a detail entry for that test with
`passed` false and the thrown message as its error string. -/
theorem c2_throws_surfaced (ev : JsEval) (l : Lesson) :
    (∀ m, ev.userThrow = some m →
       handleRunCode ev l = [Message.result ("Error: " ++ m)]) ∧
    (∀ v m, ev.userThrow = none → hasTests l = false → l.validation = some v →
       ev.evalValidation v = EvalOutcome.throws m →
       handleRunCode ev l = [Message.result ("Error: " ++ m)]) ∧
    (∀ t m, ev.userThrow = none → hasTests l = true → t ∈ l.tests.getD [] →
       ev.evalAssertion t.assertion = EvalOutcome.throws m →
       ∃ r : TestRunResult, handleRunCode ev l = [Message.testResults r] ∧
         ∃ d ∈ r.details, d.name = t.name ∧ d.passed = false ∧ d.error = some m) := by
  refine ⟨?_, ?_, ?_⟩
  · intro m hm
    exact handleRunCode_userThrow_eq ev l m hm
  · intro v m hu ht hv hev
    rw [handleRunCode_validation_eq ev l hu ht]
    simp [validationOutcome, hv, hev]
  · intro t m hu ht htm hev
    refine ⟨_, handleRunCode_tests_eq ev l hu ht, ?_⟩
    exact ⟨detailOf ev t, List.mem_map_of_mem _ htm, by simp [detailOf, hev]⟩

/-- An oracle on which the user code throws. -/
def evUserThrows : JsEval :=
  { userThrow := some "boom",
    evalAssertion := fun _ => EvalOutcome.ok true,
    evalValidation := fun _ => EvalOutcome.ok true }

/-- Concrete instantiation of `c2_throws_surfaced`: a throwing user code
posts the error result. -/
theorem c2_throws_surfaced_witness :
    handleRunCode evUserThrows lessonTwoTests = [Message.result ("Error: " ++ "boom")] :=
  (c2_throws_surfaced evUserThrows lessonTwoTests).1 "boom" rfl

/-- C3: a single run of the harness posts exactly one message, and it
has the `testResults` shape exactly when the lesson has a non-empty
test list and the user code did not throw; otherwise it has the
`result` shape. -/
theorem c3_exactly_one_message (ev : JsEval) (l : Lesson) :
    (handleRunCode ev l).length = 1 ∧
    ∀ msg ∈ handleRunCode ev l,
      (isTestResults msg = true ↔ (hasTests l = true ∧ ev.userThrow = none)) := by
  cases hu : ev.userThrow with
  | some m =>
    rw [handleRunCode_userThrow_eq ev l m hu]
    refine ⟨rfl, ?_⟩
    intro msg hmsg
    simp only [List.mem_singleton] at hmsg
    subst hmsg
    simp [isTestResults, hu]
  | none =>
    by_cases ht : hasTests l = true
    · rw [handleRunCode_tests_eq ev l hu ht]
      refine ⟨rfl, ?_⟩
      intro msg hmsg
      simp only [List.mem_singleton] at hmsg
      subst hmsg
      simp [isTestResults, ht]
    · have htf : hasTests l = false := by
        cases h : hasTests l
        · rfl
        · exact absurd h ht
      rw [handleRunCode_validation_eq ev l hu htf]
      cases hvo : validationOutcome ev l with
      | ok b =>
        refine ⟨rfl, ?_⟩
        intro msg hmsg
        simp only [List.mem_singleton] at hmsg
        subst hmsg
        simp [isTestResults, htf]
      | throws m =>
        refine ⟨rfl, ?_⟩
        intro msg hmsg
        simp only [List.mem_singleton] at hmsg
        subst hmsg
        simp [isTestResults, htf]

/-- Concrete instantiation of `c3_exactly_one_message`. -/
theorem c3_exactly_one_message_witness :
    (handleRunCode evAllPass lessonTwoTests).length = 1 ∧
    ∀ msg ∈ handleRunCode evAllPass lessonTwoTests,
      (isTestResults msg = true ↔
        (hasTests lessonTwoTests = true ∧ evAllPass.userThrow = none)) :=
  c3_exactly_one_message evAllPass lessonTwoTests

/-- C9: every posted testResults payload satisfies the invariant:
`details` has one entry per test of the lesson, in order (so its length
is `totalCount`); `passCount` counts the detail entries with `passed`
true (so `passCount ≤ totalCount`); a detail entry carries an error
field only when `passed` is false. -/
theorem c9_testResults_invariant (ev : JsEval) (l : Lesson) (r : TestRunResult)
    (h : handleRunCode ev l = [Message.testResults r]) :
    r.details.length = r.totalCount ∧
    r.details.map (fun d => d.name) = (l.tests.getD []).map (fun t => t.name) ∧
    r.passCount = r.details.countP (fun d => d.passed) ∧
    r.passCount ≤ r.totalCount ∧
    ∀ d ∈ r.details, d.error.isSome = true → d.passed = false := by
  cases hu : ev.userThrow with
  | some m =>
    rw [handleRunCode_userThrow_eq ev l m hu] at h
    simp at h
  | none =>
    by_cases ht : hasTests l = true
    · rw [handleRunCode_tests_eq ev l hu ht] at h
      simp only [List.cons.injEq, Message.testResults.injEq, and_true] at h
      subst h
      refine ⟨List.length_map _ _, ?_, rfl, ?_, ?_⟩
      · rw [List.map_map]
        exact List.map_congr_left fun t _ => detailOf_name ev t
      · show ((l.tests.getD []).map (detailOf ev)).countP (fun d => d.passed) ≤
          (l.tests.getD []).length
        calc ((l.tests.getD []).map (detailOf ev)).countP (fun d => d.passed)
            ≤ ((l.tests.getD []).map (detailOf ev)).length := List.countP_le_length _
          _ = (l.tests.getD []).length := List.length_map _ _
      · intro d hd herr
        rcases List.mem_map.mp hd with ⟨t, _, rfl⟩
        exact detailOf_error_isSome ev t herr
    · have htf : hasTests l = false := by
        cases hb : hasTests l
        · rfl
        · exact absurd hb ht
      rw [handleRunCode_validation_eq ev l hu htf] at h
      cases hvo : validationOutcome ev l <;> rw [hvo] at h <;> simp at h

/-- A lesson with two tests, the second of which throws under
`evOneThrows`. -/
def lessonOneThrows : Lesson :=
  { id := "c9", title := "", explanation := "", challenge := "",
    initialCode := "", validation := none,
    tests := some [{ name := "t1", assertion := "b1" },
                   { name := "t2", assertion := "b2" }],
    hint := "" }

/-- An oracle on which assertion `b1` passes and every other assertion
throws with message `bad`. -/
def evOneThrows : JsEval :=
  { userThrow := none,
    evalAssertion := fun a => if a = "b1" then EvalOutcome.ok true
                              else EvalOutcome.throws "bad",
    evalValidation := fun _ => EvalOutcome.ok false }

/-- The payload `evOneThrows` produces on `lessonOneThrows`. -/
def resultOneThrows : TestRunResult :=
  { passCount := 1, totalCount := 2,
    details := [{ name := "t1", passed := true, error := none },
                { name := "t2", passed := false, error := some "bad" }] }

/-- Concrete instantiation of `c9_testResults_invariant`. -/
theorem c9_testResults_invariant_witness :
    resultOneThrows.details.length = resultOneThrows.totalCount ∧
    resultOneThrows.details.map (fun d => d.name) =
      (lessonOneThrows.tests.getD []).map (fun t => t.name) ∧
    resultOneThrows.passCount = resultOneThrows.details.countP (fun d => d.passed) ∧
    resultOneThrows.passCount ≤ resultOneThrows.totalCount ∧
    ∀ d ∈ resultOneThrows.details, d.error.isSome = true → d.passed = false :=
  c9_testResults_invariant evOneThrows lessonOneThrows resultOneThrows (by decide)

/-- C10: a lesson with neither a non-empty test list nor a validation
expression always posts the failure result when the user code does not
throw — the fallback body `return false;` makes success impossible. -/
theorem c10_missing_validation_never_success (ev : JsEval) (l : Lesson)
    (hu : ev.userThrow = none) (ht : hasTests l = false) (hv : l.validation = none) :
    handleRunCode ev l = [Message.result "Keep trying! The validation failed."] ∧
    ∀ msg ∈ handleRunCode ev l,
      msg ≠ Message.result "Success! Correct!" ∧
      ∀ r : TestRunResult, msg ≠ Message.testResults r := by
  have heq : handleRunCode ev l = [Message.result "Keep trying! The validation failed."] := by
    rw [handleRunCode_validation_eq ev l hu ht]
    simp [validationOutcome, hv]
  refine ⟨heq, ?_⟩
  intro msg hmsg
  rw [heq] at hmsg
  simp only [List.mem_singleton] at hmsg
  subst hmsg
  refine ⟨?_, ?_⟩
  · intro hcontra
    simp only [Message.result.injEq] at hcontra
    exact absurd hcontra (by decide)
  · intro r hcontra
    exact Message.noConfusion hcontra

/-- A lesson with no tests and no validation expression. -/
def lessonBare : Lesson :=
  { id := "c10", title := "", explanation := "", challenge := "",
    initialCode := "", validation := none, tests := none, hint := "" }

/-- Concrete instantiation of `c10_missing_validation_never_success`. -/
theorem c10_missing_validation_never_success_witness :
    handleRunCode evAllPass lessonBare = [Message.result "Keep trying! The validation failed."] ∧
    ∀ msg ∈ handleRunCode evAllPass lessonBare,
      msg ≠ Message.result "Success! Correct!" ∧
      ∀ r : TestRunResult, msg ≠ Message.testResults r :=
  c10_missing_validation_never_success evAllPass lessonBare rfl rfl rfl

/-! ## Claim theorems: state handlers and rendering -/

/-- C4: with a non-empty lesson list, `handleResetCode` removes the
stored code entry keyed by the current lesson's identifier, sets the
editor code to that lesson's `initialCode`, sets the result text, clears
the test result, and changes no other storage entry. -/
theorem c4_reset_clears_current_lesson (s : AppState) (h : 0 < s.lessons.length) :
    (handleResetCode s).storage
      (codeKey (s.lessons.getD s.currentLessonIndex defaultLesson).id) = none ∧
    (handleResetCode s).code =
      (s.lessons.getD s.currentLessonIndex defaultLesson).initialCode ∧
    (handleResetCode s).result = "Code has been reset." ∧
    (handleResetCode s).testResult = none ∧
    ∀ k, k ≠ codeKey (s.lessons.getD s.currentLessonIndex defaultLesson).id →
      (handleResetCode s).storage k = s.storage k := by
  unfold handleResetCode
  rw [if_pos h]
  exact ⟨if_pos rfl, rfl, rfl, rfl, fun k hk => if_neg hk⟩

/-- A first sample lesson for the state claims. -/
def lessonA : Lesson :=
  { id := "a", title := "", explanation := "", challenge := "",
    initialCode := "ia", validation := none, tests := none, hint := "" }

/-- A second sample lesson for the state claims. -/
def lessonB : Lesson :=
  { id := "b", title := "", explanation := "", challenge := "",
    initialCode := "ib", validation := none, tests := none, hint := "" }

/-- A state with two lessons, both with saved code, current index 0. -/
def stateTwoLessons : AppState :=
  { lessons := [lessonA, lessonB], currentLessonIndex := 0,
    code := "x", result := "", testResult := none,
    loading := false, error := none, showHint := false,
    storage := fun k =>
      if k = codeKey "a" then some "savedA"
      else if k = codeKey "b" then some "savedB"
      else none }

/-- Concrete instantiation of `c4_reset_clears_current_lesson`. -/
theorem c4_reset_clears_current_lesson_witness :
    (handleResetCode stateTwoLessons).storage
      (codeKey (stateTwoLessons.lessons.getD stateTwoLessons.currentLessonIndex
        defaultLesson).id) = none ∧
    (handleResetCode stateTwoLessons).code =
      (stateTwoLessons.lessons.getD stateTwoLessons.currentLessonIndex
        defaultLesson).initialCode ∧
    (handleResetCode stateTwoLessons).result = "Code has been reset." ∧
    (handleResetCode stateTwoLessons).testResult = none ∧
    ∀ k, k ≠ codeKey (stateTwoLessons.lessons.getD stateTwoLessons.currentLessonIndex
        defaultLesson).id →
      (handleResetCode stateTwoLessons).storage k = stateTwoLessons.storage k :=
  c4_reset_clears_current_lesson stateTwoLessons (by decide)

/-- A lesson whose stored code entry is the empty string. -/
def lessonEmptySaved : Lesson :=
  { id := "c5", title := "", explanation := "", challenge := "",
    initialCode := "start", validation := none, tests := none, hint := "" }

/-- A state in which the current lesson has a stored entry holding the
empty string. -/
def stateEmptySaved : AppState :=
  { lessons := [lessonEmptySaved], currentLessonIndex := 0,
    code := "", result := "", testResult := none,
    loading := false, error := none, showHint := false,
    storage := fun k => if k = codeKey "c5" then some "" else none }

/-- Counterexample to C5 as stated: a stored code entry for the current
lesson exists (holding the empty string), yet loading sets the editor to
the lesson's `initialCode` rather than to the stored code —
`savedCode || initialCode` treats the empty string as absent. -/
theorem c5_counterexample_empty_entry :
    stateEmptySaved.storage (codeKey "c5") = some "" ∧
    (loadInitialCode stateEmptySaved).code = "start" ∧
    (loadInitialCode stateEmptySaved).code ≠ "" := by
  refine ⟨rfl, rfl, ?_⟩
  intro h
  exact absurd h (by decide)

/-- C5 (amended): with a non-empty lesson list, loading the current
lesson's code sets the editor to the stored entry when it exists and is
non-empty, and to the lesson's `initialCode` when the entry is absent or
is the empty string. -/
theorem c5_load_saved_or_default (s : AppState) (h : 0 < s.lessons.length) :
    (∀ c, s.storage (codeKey (s.lessons.getD s.currentLessonIndex defaultLesson).id) =
        some c → c ≠ "" → (loadInitialCode s).code = c) ∧
    (s.storage (codeKey (s.lessons.getD s.currentLessonIndex defaultLesson).id) = none →
      (loadInitialCode s).code =
        (s.lessons.getD s.currentLessonIndex defaultLesson).initialCode) ∧
    (s.storage (codeKey (s.lessons.getD s.currentLessonIndex defaultLesson).id) = some "" →
      (loadInitialCode s).code =
        (s.lessons.getD s.currentLessonIndex defaultLesson).initialCode) := by
  unfold loadInitialCode
  rw [if_pos h]
  refine ⟨?_, ?_, ?_⟩
  · intro c hc hne
    show jsStringOr
      (s.storage (codeKey (s.lessons.getD s.currentLessonIndex defaultLesson).id))
      (s.lessons.getD s.currentLessonIndex defaultLesson).initialCode = c
    rw [hc]
    simp [jsStringOr, hne]
  · intro hnone
    show jsStringOr
      (s.storage (codeKey (s.lessons.getD s.currentLessonIndex defaultLesson).id))
      (s.lessons.getD s.currentLessonIndex defaultLesson).initialCode =
      (s.lessons.getD s.currentLessonIndex defaultLesson).initialCode
    rw [hnone]
    rfl
  · intro hempty
    show jsStringOr
      (s.storage (codeKey (s.lessons.getD s.currentLessonIndex defaultLesson).id))
      (s.lessons.getD s.currentLessonIndex defaultLesson).initialCode =
      (s.lessons.getD s.currentLessonIndex defaultLesson).initialCode
    rw [hempty]
    simp [jsStringOr]

/-- Concrete instantiation of `c5_load_saved_or_default` (on
`stateTwoLessons`, whose current lesson has the non-empty saved code
`savedA`). -/
theorem c5_load_saved_or_default_witness :
    (∀ c, stateTwoLessons.storage
        (codeKey (stateTwoLessons.lessons.getD stateTwoLessons.currentLessonIndex
          defaultLesson).id) = some c → c ≠ "" →
      (loadInitialCode stateTwoLessons).code = c) ∧
    (stateTwoLessons.storage
        (codeKey (stateTwoLessons.lessons.getD stateTwoLessons.currentLessonIndex
          defaultLesson).id) = none →
      (loadInitialCode stateTwoLessons).code =
        (stateTwoLessons.lessons.getD stateTwoLessons.currentLessonIndex
          defaultLesson).initialCode) ∧
    (stateTwoLessons.storage
        (codeKey (stateTwoLessons.lessons.getD stateTwoLessons.currentLessonIndex
          defaultLesson).id) = some "" →
      (loadInitialCode stateTwoLessons).code =
        (stateTwoLessons.lessons.getD stateTwoLessons.currentLessonIndex
          defaultLesson).initialCode) :=
  c5_load_saved_or_default stateTwoLessons (by decide)

/-- C6: an incoming `result` or `testResults` frame message is applied
to the current view state unconditionally: `handleMessage` consults no
field of the state, so after selecting any other lesson the message
still overwrites the displayed result or test result for the now-current
lesson (there is no correlation identifier or staleness check). -/
theorem c6_message_applied_unconditionally (s : AppState) (j : Nat) (p : String)
    (r : TestRunResult) :
    (handleMessage (handleLessonSelect s j) (FrameData.result p)).result = p ∧
    (handleMessage (handleLessonSelect s j) (FrameData.result p)).currentLessonIndex = j ∧
    (handleMessage (handleLessonSelect s j) (FrameData.result p)).testResult = none ∧
    (handleMessage (handleLessonSelect s j) (FrameData.testResults r)).testResult = some r ∧
    (handleMessage (handleLessonSelect s j) (FrameData.testResults r)).currentLessonIndex = j ∧
    (handleMessage s (FrameData.result p)).result = p ∧
    (handleMessage s (FrameData.testResults r)).testResult = some r :=
  ⟨rfl, rfl, rfl, rfl, rfl, rfl, rfl⟩

/-- The initial component state: no lessons, index 0, loading, no error
(the `useState` initializers), with storage left empty. -/
def initialState : AppState :=
  { lessons := [], currentLessonIndex := 0, code := "", result := "",
    testResult := none, loading := true, error := none, showHint := false,
    storage := fun _ => none }

/-- C7: a failed lessons fetch (non-ok HTTP status or network error)
renders the static error pane, and a successful fetch of an empty lesson
list renders the empty-state pane; in neither case is a lesson view
rendered. -/
theorem c7_fetch_failure_and_empty_states (s : AppState) (herr : s.error = none)
    (st : Nat) :
    render (applyFetchResult s (FetchOutcome.httpError st)) =
      View.errorView fetchFailureMessage ∧
    render (applyFetchResult s FetchOutcome.networkError) =
      View.errorView fetchFailureMessage ∧
    render (applyFetchResult s (FetchOutcome.success [])) =
      View.emptyView "No lessons found." ∧
    (∀ l, render (applyFetchResult s (FetchOutcome.httpError st)) ≠ View.lessonView l) ∧
    (∀ l, render (applyFetchResult s FetchOutcome.networkError) ≠ View.lessonView l) ∧
    (∀ l, render (applyFetchResult s (FetchOutcome.success [])) ≠ View.lessonView l) := by
  have h1 : render (applyFetchResult s (FetchOutcome.httpError st)) =
      View.errorView fetchFailureMessage := rfl
  have h2 : render (applyFetchResult s FetchOutcome.networkError) =
      View.errorView fetchFailureMessage := rfl
  have h3 : render (applyFetchResult s (FetchOutcome.success [])) =
      View.emptyView "No lessons found." := by
    simp [render, applyFetchResult, herr]
  refine ⟨h1, h2, h3, ?_, ?_, ?_⟩
  · intro l hl
    rw [h1] at hl
    exact View.noConfusion hl
  · intro l hl
    rw [h2] at hl
    exact View.noConfusion hl
  · intro l hl
    rw [h3] at hl
    exact View.noConfusion hl

/-- Concrete instantiation of `c7_fetch_failure_and_empty_states` at the
initial state. -/
theorem c7_fetch_failure_and_empty_states_witness :
    render (applyFetchResult initialState (FetchOutcome.httpError 404)) =
      View.errorView fetchFailureMessage ∧
    render (applyFetchResult initialState FetchOutcome.networkError) =
      View.errorView fetchFailureMessage ∧
    render (applyFetchResult initialState (FetchOutcome.success [])) =
      View.emptyView "No lessons found." ∧
    (∀ l, render (applyFetchResult initialState (FetchOutcome.httpError 404)) ≠
      View.lessonView l) ∧
    (∀ l, render (applyFetchResult initialState FetchOutcome.networkError) ≠
      View.lessonView l) ∧
    (∀ l, render (applyFetchResult initialState (FetchOutcome.success [])) ≠
      View.lessonView l) :=
  c7_fetch_failure_and_empty_states initialState rfl 404

/-- C8: a click of the hint button is idempotent: the button's handler
captured the `showHint` value of the render that created it, so the
state it produces does not depend on the state at dispatch time, and
repeating the same click yields the same state as performing it once. -/
theorem c8_hint_click_idempotent (rendered s : Bool) :
    hintClick rendered (hintClick rendered s) = hintClick rendered s := rfl
